import Mathlib

/-!
Verification development for the `smart_copy` service.

The definitions below are a shallow embedding of the scheduling and
execution engine of the repository: the SQLite-backed per-recorder FIFO
queue (`smartCommon.py`, class `DiskBackedQueue`), the interruptible
copy/delete executor (`smartCommon.py`, class `InterruptibleCopy`), the
per-recorder worker loop (`smartThreads.py`, class `ManageDR`), the
supervisor callback (`smartFunctions.py`, class `SmartCopy`) and the MCS
request handler (`smart_cmnd.py`, class `MCSCommunicate`).

Machine-level conventions of the embedding:
* Python exceptions are modelled with `Except String`.
* Timestamps (`time.time()` values, `last_try`) are modelled as integers
  (seconds); all comparisons in the source are order comparisons which
  the integer model preserves at every concrete input used below.
* SQLite's dynamic typing is irrelevant for the rows manipulated here;
  `command_id` is stored with INTEGER affinity and is modelled as `Int`.
-/

/-- Python's `str.find(pat) != -1`, i.e. substring containment, modelled
on the character lists of the two strings. -/
def pyFind (s pat : String) : Bool :=
  decide (pat.toList <:+: s.toList)

namespace DiskBackedQueue

/-- One element of the in-memory FIFO: the 7-tuple
`(host, hostpath, dest, destpath, command_id, retry_count, last_try)`
that `DiskBackedQueue.put` pushes with `super().put(item)`. -/
structure Item where
  host : String
  hostpath : String
  dest : String
  destpath : String
  command_id : Int
  retry_count : Int
  last_try : Int
  deriving Repr, DecidableEq

/-- One persisted row of the `queue_items` table (the `id` rowid is the
list position; `created_at` is never read by the code and is omitted). -/
structure Row where
  queue_name : String
  host : String
  hostpath : String
  dest : String
  destpath : String
  filesize : Int
  command_id : Int
  retry_count : Int
  last_try : Int
  status : String
  deriving Repr, DecidableEq

/-- The columns of `queue_items` as created by `DiskBackedQueue.SCHEMA`
(`smartCommon.py` lines 95-108). -/
def tableColumns : List String :=
  ["id", "queue_name", "host", "hostpath", "dest", "destpath", "filesize",
   "command_id", "retry_count", "last_try", "status", "created_at"]

/-- The column list named by the INSERT statement inside
`DiskBackedQueue.put` (`smartCommon.py` lines 250-254). -/
def putInsertColumns : List String :=
  ["queue_name", "host", "hostpath", "dest", "destpath", "command_id",
   "retry", "last_try"]

/-- SQLite accepts an INSERT only when every named column exists in the
table; otherwise preparing the statement raises
`sqlite3.OperationalError: table queue_items has no column named ...`. -/
def putInsertValid : Bool :=
  putInsertColumns.all (fun c => tableColumns.contains c)

/-- The queue state visible to one worker: its queue name, the in-memory
FIFO inherited from `queue.Queue`, and the shared `queue_items` table. -/
structure QState where
  queue_name : String
  mem : List Item
  rows : List Row
  deriving Repr, DecidableEq

/-- The row that `put`'s INSERT would create if its column list were
valid: status defaults to `'pending'`, `filesize` to 0.  (Unreachable in
the source because `putInsertValid` is `false`.) -/
def pendingRowOf (qn : String) (it : Item) : Row :=
  { queue_name := qn, host := it.host, hostpath := it.hostpath,
    dest := it.dest, destpath := it.destpath, filesize := 0,
    command_id := it.command_id, retry_count := it.retry_count,
    last_try := it.last_try, status := "pending" }

/-- `DiskBackedQueue.put` (`smartCommon.py` lines 237-262).  The item is
pushed onto the in-memory FIFO *before* the transaction is attempted;
a `sqlite3.Error` (modelled by `fault = true`, or by the statically
invalid column list) rolls the transaction back, leaves the table
untouched, and re-raises — without undoing the in-memory push. -/
def put (s : QState) (it : Item) (fault : Bool) : QState × Except String Unit :=
  let s1 : QState := { s with mem := s.mem ++ [it] }
  if fault || !putInsertValid then
    (s1, .error "sqlite3.OperationalError: table queue_items has no column named retry")
  else
    ({ s1 with rows := s1.rows ++ [pendingRowOf s.queue_name it] }, .ok ())

/-- The UPDATE run by `get`: mark this worker's pending row with the
popped `command_id` as `processing`. -/
def markProcessing (rows : List Row) (qn : String) (cid : Int) : List Row :=
  rows.map (fun r =>
    if r.queue_name = qn && r.command_id = cid && r.status = "pending" then
      { r with status := "processing" }
    else r)

/-- `DiskBackedQueue.get` (`smartCommon.py` lines 264-290).  The item is
popped from the in-memory FIFO *before* the transaction; on a driver
error the transaction is rolled back and the exception re-raised, with
the popped item not put back. -/
def get (s : QState) (fault : Bool) : QState × Except String Item :=
  match s.mem with
  | [] => (s, .error "queue.Empty")
  | it :: rest =>
      let s1 : QState := { s with mem := rest }
      if fault then
        (s1, .error "sqlite3.Error")
      else
        ({ s1 with rows := markProcessing s1.rows s.queue_name it.command_id },
         .ok it)

/-- `DiskBackedQueue._check_integrity` (`smartCommon.py` lines 186-210):
every row of this queue with `status = 'processing'` is reset to
`'pending'` (valid SQL; committed). -/
def checkIntegrity (rows : List Row) (qn : String) : List Row :=
  rows.map (fun r =>
    if r.queue_name = qn && r.status = "processing" then
      { r with status := "pending" }
    else r)

/-- A dynamically-typed Python value, used to model the 7-tuple of
column values handed around during restore. -/
inductive PyVal where
  | str (s : String)
  | int (n : Int)
  deriving Repr, DecidableEq

/-- The positional-argument tuple `*row` that `_restore_pending_items`
passes to `super().put`: the seven SELECTed values
`host, hostpath, dest, destpath, command_id, retry_count, last_try`. -/
def restoreRowArgs (r : Row) : List PyVal :=
  [.str r.host, .str r.hostpath, .str r.dest, .str r.destpath,
   .int r.command_id, .int r.retry_count, .int r.last_try]

/-- CPython call semantics of `queue.Queue.put(self, item, block=True,
timeout=None)`: at most three positional arguments besides `self`; more
raise `TypeError` before the body runs. -/
def pyQueuePut (args : List PyVal) : Except String PyVal :=
  match args with
  | [] => .error "TypeError: put() missing 1 required positional argument"
  | [item] => .ok item
  | [item, _block] => .ok item
  | [item, _block, _timeout] => .ok item
  | _ => .error "TypeError: put() takes from 2 to 4 positional arguments but 8 were given"

/-- A positional argument in a call of `DiskBackedQueue.put`: either a
scalar field value or a whole task-specification tuple passed as a
single value. -/
inductive PutArg where
  | scalar (v : PyVal)
  | tuple (sp : Item)
  deriving Repr, DecidableEq

/-- CPython call semantics of `DiskBackedQueue.put(self, host, hostpath,
dest, destpath, command_id, retry_count=0, last_retry=0.0, block=True,
timeout=None)` (`smartCommon.py` line 237): five required positional
parameters besides `self`, nine accepted; a call supplying fewer than
five raises `TypeError` before the body runs. -/
def pyPutCall (args : List PutArg) : Except String Unit :=
  if args.length < 5 then
    .error "TypeError: put() missing 4 required positional arguments"
  else if args.length > 9 then
    .error "TypeError: put() takes too many positional arguments"
  else
    .ok ()

/-- Insert a row into a list sorted by ascending `command_id`
(stable, matching `ORDER BY command_id`). -/
def insertByCid (r : Row) : List Row → List Row
  | [] => [r]
  | x :: xs =>
      if r.command_id < x.command_id then r :: x :: xs
      else x :: insertByCid r xs

/-- `ORDER BY command_id` over a bag of rows. -/
def sortByCommandId (rows : List Row) : List Row :=
  rows.foldr insertByCid []

/-- The loop body of `_restore_pending_items`: each SELECTed row is
splatted into `super().put(*row)`.  Only `pickle.UnpicklingError` and
`EOFError` are caught there; a `TypeError` propagates out of the loop. -/
def restoreLoop : List Row → Except String (List PyVal)
  | [] => .ok []
  | r :: rest =>
      match pyQueuePut (restoreRowArgs r) with
      | .error e => .error e
      | .ok it => (restoreLoop rest).map (fun l => it :: l)

/-- `DiskBackedQueue._restore_pending_items` (`smartCommon.py` lines
212-235): SELECT this queue's `pending` rows in `command_id` order and
push each onto the in-memory FIFO via `super().put(*row)`. -/
def restorePendingItems (rows : List Row) (qn : String) : Except String (List PyVal) :=
  restoreLoop (sortByCommandId
    (rows.filter (fun r => r.queue_name = qn && r.status = "pending")))

/-- Reopening a `DiskBackedQueue` with `restore=True`
(`smartCommon.py` lines 158-184): `_check_integrity` first resets
interrupted `processing` rows to `pending`, then
`_restore_pending_items` rebuilds the in-memory FIFO.  Returns the
table after recovery together with the outcome of the restore. -/
def reopen (rows : List Row) (qn : String) : List Row × Except String (List PyVal) :=
  let rows1 := checkIntegrity rows qn
  (rows1, restorePendingItems rows1 qn)

end DiskBackedQueue

/-- `DELETE_MARKER_QUEUE` (`smartCommon.py` line 29). -/
def DELETE_MARKER_QUEUE : String := "smartcopy_queue_delete_this_file"

/-- `DELETE_MARKER_NOW` (`smartCommon.py` line 30). -/
def DELETE_MARKER_NOW : String := "smartcopy_now_delete_this_file"

namespace InterruptibleCopy

/-- The fields of `InterruptibleCopy` that its construction, `resume`
and retry bookkeeping read or write.  `threadSpawned` models
`self.thread is not None` (a live worker thread driving the rsync/rm
subprocess). -/
structure ICState where
  host : String
  hostpath : String
  dest : String
  destpath : String
  id : Int
  tries : Int
  last_try : Int
  status : String
  threadSpawned : Bool
  deriving Repr, DecidableEq

/-- `InterruptibleCopy.resume` (`smartCommon.py` lines 724-753).
With no live thread: a `DELETE_MARKER_QUEUE` destination is marked
`'complete'` at once, with no thread and no bookkeeping; otherwise a
worker thread is spawned and — when the previous status was not
`'paused'` — `tries` is incremented (plus 100 extra for a delete
marker) and `last_try` set to the current time; the status becomes
`'active'`.  Returns the updated state and the function's boolean
result. -/
def resume (c : ICState) (now : Int) : ICState × Bool :=
  if c.threadSpawned then
    (c, false)
  else if c.destpath = DELETE_MARKER_QUEUE then
    ({ c with status := "complete" }, true)
  else
    let c1 : ICState := { c with threadSpawned := true }
    let c2 : ICState :=
      if c1.status ≠ "paused" then
        let t := c1.tries + 1
        let t := if c1.destpath = DELETE_MARKER_NOW || c1.destpath = DELETE_MARKER_QUEUE
                 then t + 100 else t
        { c1 with tries := t, last_try := now }
      else c1
    ({ c2 with status := "active" }, true)

/-- `InterruptibleCopy.__init__` (`smartCommon.py` lines 479-508): the
state after field setup, then either `resume()` (when
`time.time() - last_try > 86400.0`) or the synthesized
`'error: too soon to retry'` status with nothing spawned. -/
def init (host hostpath dest destpath : String) (id tries last_try now : Int) :
    ICState :=
  let c0 : ICState :=
    { host := host, hostpath := hostpath, dest := dest, destpath := destpath,
      id := id, tries := tries, last_try := last_try, status := "",
      threadSpawned := false }
  if now - last_try > 86400 then (resume c0 now).1
  else { c0 with status := "error: too soon to retry" }

/-- `InterruptibleCopy.isRemote` (`smartCommon.py` lines 645-653). -/
def isRemote (c : ICState) : Bool :=
  !(c.host = c.dest)

/-- `InterruptibleCopy.getTaskSpecification` (`smartCommon.py` lines
528-534): the tuple used to re-add the copy to the processing queue. -/
def getTaskSpecification (c : ICState) : DiskBackedQueue.Item :=
  { host := c.host, hostpath := c.hostpath, dest := c.dest,
    destpath := c.destpath, command_id := c.id,
    retry_count := c.tries, last_try := c.last_try }

end InterruptibleCopy

namespace ManageDR

/-- Disposition of a failed executor in `ManageDR.processQueue`
(`smartThreads.py` lines 398-413): the error-log record, a successful
re-queue, or an exception raised by the re-queue call (caught by the
loop's generic `except Exception`, which logs it and continues without
clearing `self.active`). -/
inductive FailedAction where
  | recordFailed
  | requeued (sp : DiskBackedQueue.Item)
  | raised (err : String)
  deriving Repr, DecidableEq

/-- The failed branch of `ManageDR.processQueue` (`smartThreads.py`
lines 398-413): when the finished executor `isFailed()`, write it to
the error log if `getTryCount() >= max_retry` — the branch condition
reads only the try count — and otherwise execute
`self.queue.put(self.active.getTaskSpecification())`, which passes the
whole task-specification tuple as the single positional argument of
`DiskBackedQueue.put`. -/
def handleFailed (tries maxRetry : Int) (sp : DiskBackedQueue.Item) :
    FailedAction :=
  if tries ≥ maxRetry then .recordFailed
  else
    match DiskBackedQueue.pyPutCall [.tuple sp] with
    | .error e => .raised e
    | .ok _ => .requeued sp

/-- The disposition the specification's words prescribe (§4.5.1):
record `failed` iff the source file no longer exists or
`tries ≥ max_retry`.  Stated from the spec, for comparison with
`handleFailed`. -/
def specFailedDisposition (sourceExists : Bool) (tries maxRetry : Int) : Bool :=
  !sourceExists || tries ≥ maxRetry

/-- The success branch of `ManageDR.processQueue` (`smartThreads.py`
lines 379-396): whether a successful transfer is appended to the
`completed_<dr>.log` record.  A source path containing `DROS/Spec` is
recorded only when the copy was remote (`host != dest`) and the
destination string contains `leo10g.unm.edu`; every other source path
is always recorded. -/
def recordsCompleted (hostpath host dest : String) : Bool :=
  if pyFind hostpath "DROS/Spec" then
    (!(host = dest)) && pyFind dest "leo10g.unm.edu"
  else
    true

/-- State of the process-wide remote-copy semaphore `rcl`
(`smartThreads.py` line 40, `threading.Semaphore()`, initial count 1)
together with the number of non-complete cross-host executors. -/
structure RclState where
  sem : Nat
  activeCross : Nat
  deriving Repr, DecidableEq

/-- Events touching the remote-copy semaphore:
* `spawnCross` — `processQueue` acquires `rcl` non-blocking before
  constructing a cross-host executor (`smartThreads.py` lines 452-466);
* `finishCross` — a completed cross-host executor is drained and `rcl`
  released (`smartThreads.py` lines 415-418);
* `stop` — `ManageDR.stop` pauses the current copy and releases `rcl`
  unconditionally (`smartThreads.py` lines 303-321); Python's
  `threading.Semaphore.release` never raises `threading.ThreadError`,
  so the guarded `except` there is dead and the count always grows. -/
inductive RclEv where
  | spawnCross
  | finishCross
  | stop
  deriving Repr, DecidableEq

/-- One transition of the semaphore/executor system.  `none` means the
event is not enabled (a failed non-blocking acquire re-queues the job
instead of spawning; an executor that does not exist cannot finish). -/
def step (s : RclState) (e : RclEv) : Option RclState :=
  match e with
  | .spawnCross =>
      if s.sem > 0 then some ⟨s.sem - 1, s.activeCross + 1⟩ else none
  | .finishCross =>
      if s.activeCross > 0 then some ⟨s.sem + 1, s.activeCross - 1⟩ else none
  | .stop => some ⟨s.sem + 1, s.activeCross⟩

/-- Run a sequence of events from a given state. -/
def runFrom (s : RclState) : List RclEv → Option RclState
  | [] => some s
  | e :: rest =>
      match step s e with
      | none => none
      | some s1 => runFrom s1 rest

/-- Run a sequence of events from the initial state: semaphore count 1,
no cross-host executor. -/
def run (evs : List RclEv) : Option RclState :=
  runFrom ⟨1, 0⟩ evs

end ManageDR

namespace SmartCopy

/-- What `SmartCopy.processDRStateChange` does to the named worker. -/
inductive DRAction where
  | resumed
  | paused
  deriving Repr, DecidableEq

/-- `SmartCopy.processDRStateChange` (`smartFunctions.py` lines
569-581).  `drThreadsInit` models `currentState['drThreads'] is not
None`; `gi` is the `globalInhibit` mapping, whose keys coincide with
the worker map's (both are built together in `__iniProcess`,
`smartFunctions.py` lines 113-120).  When the maps are initialized the
worker is resumed if the recorder is idle and not globally inhibited,
and paused in every other case; an unknown recorder raises `KeyError`. -/
def processDRStateChange (drThreadsInit : Bool) (gi : List (String × Bool))
    (dr : String) (busy : Bool) : Except String (Bool × Option DRAction) :=
  if !drThreadsInit then
    .ok (false, none)
  else
    match gi.lookup dr with
    | none => .error "KeyError"
    | some g =>
        if !busy && !g then .ok (true, some .resumed)
        else .ok (true, some .paused)

end SmartCopy

namespace MCSCommunicate

/-- A parsed MCS request, as produced by `Communicate.parsePacket`
(`MCS.py` lines 260-286): destination and sender subsystems, three-byte
command, reference id and the data section. -/
structure Packet where
  destination : String
  sender : String
  command : String
  reference : Int
  data : String
  deriving Repr, DecidableEq

/-- The slice of the subsystem state that the modelled commands read:
the subsystem name and the `currentState` strings served by `RPT`. -/
structure SCView where
  subSystem : String
  summary : String
  deriving Repr, DecidableEq

/-- One `commandStatus` bucket: a slot time and the
`(command, reference, exitCode)` records appended under it. -/
structure StatusBucket where
  slot : Int
  recs : List (String × Int × Int)
  deriving Repr, DecidableEq

/-- The pruning at the end of `MCSCommunicate.processCommand`
(`smart_cmnd.py` lines 346-348): every slot-time bucket except the last
four is deleted. -/
def pruneStatus (cs : List StatusBucket) : List StatusBucket :=
  cs.drop (cs.length - 4)

/-- `MCSCommunicate.processCommand` (`smart_cmnd.py` lines 57-351),
restricted to the `PNG` arm, the `RPT SUMMARY` report and the
unknown-command fallback; the remaining arms (`RPT` MIB getters and the
control commands `INI/SHT/SCP/PAU/RES/SCN/SRM`) delegate to the
supervisor and are returned as `none` by this slice.  A packet whose
destination matches neither this subsystem nor `ALL` falls through the
handler, which then returns `None` to `packetProcessor` (outer `none`).
In every arm the accept/reject decision is computed from the packet and
the subsystem view alone; no past reference id is consulted, and the
only touch on `commandStatus` is the size-bounded pruning. -/
def processCommand (v : SCView) (cs : List StatusBucket) (p : Packet) :
    Option (Option (Bool × String)) × List StatusBucket :=
  if p.destination = v.subSystem || p.destination = "ALL" then
    if p.command = "PNG" then
      (some (some (true, "")), pruneStatus cs)
    else if p.command = "RPT" then
      if p.data = "SUMMARY" then
        (some (some (true, v.summary.take 7)), pruneStatus cs)
      else
        (none, cs)
    else if p.command ∈ ["INI", "SHT", "SCP", "PAU", "RES", "SCN", "SRM"] then
      (none, cs)
    else
      (some (some (false, "Unknown command: " ++ p.command)), pruneStatus cs)
  else
    (some none, cs)

end MCSCommunicate

/-- The two delete sentinels are distinct strings. -/
theorem delete_markers_distinct : DELETE_MARKER_NOW ≠ DELETE_MARKER_QUEUE := by
  decide

/-- One step of the remote-copy semaphore system preserves
`sem + activeCross = 1` as long as the event is not a `stop`. -/
theorem ManageDR.step_inv (s0 s1 : ManageDR.RclState) (e : ManageDR.RclEv)
    (hne : e ≠ .stop) (h0 : s0.sem + s0.activeCross = 1)
    (hstep : ManageDR.step s0 e = some s1) :
    s1.sem + s1.activeCross = 1 := by
  cases e with
  | stop => exact absurd rfl hne
  | spawnCross =>
      simp only [ManageDR.step] at hstep
      split at hstep
      · rename_i hpos
        cases hstep
        show s0.sem - 1 + (s0.activeCross + 1) = 1
        omega
      · cases hstep
  | finishCross =>
      simp only [ManageDR.step] at hstep
      split at hstep
      · rename_i hpos
        cases hstep
        show s0.sem + 1 + (s0.activeCross - 1) = 1
        omega
      · cases hstep

/-- Along any event sequence free of `stop`, the remote-copy semaphore
system preserves `sem + activeCross = 1`. -/
theorem ManageDR.runFrom_inv (evs : List ManageDR.RclEv) (s0 s : ManageDR.RclState)
    (hns : ManageDR.RclEv.stop ∉ evs)
    (h0 : s0.sem + s0.activeCross = 1)
    (h : ManageDR.runFrom s0 evs = some s) :
    s.sem + s.activeCross = 1 := by
  induction evs generalizing s0 with
  | nil =>
      simp [ManageDR.runFrom] at h
      exact h ▸ h0
  | cons e rest ih =>
      have hne : e ≠ .stop := fun he => hns (he ▸ List.mem_cons_self e rest)
      have hrest : ManageDR.RclEv.stop ∉ rest := fun hm => hns (List.mem_cons_of_mem e hm)
      rw [ManageDR.runFrom] at h
      cases hstep : ManageDR.step s0 e with
      | none => rw [hstep] at h; cases h
      | some s1 =>
          rw [hstep] at h
          exact ih s1 hrest (ManageDR.step_inv s0 s1 e hne h0 hstep) h

/-- Claim C1: the claim says `DiskBackedQueue.put` durably commits a
`pending` row before returning.  In the source the INSERT statement
names a column `retry` that the class's own SCHEMA does not create (it
creates `retry_count`), so every `put` raises
`sqlite3.OperationalError`, the transaction is rolled back, and no
`pending` row is ever committed — while the item has already been
pushed onto the in-memory FIFO.  Evaluated here at a concrete input. -/
theorem C1_put_insert_rejected :
    ("retry" ∈ DiskBackedQueue.putInsertColumns ∧
      "retry" ∉ DiskBackedQueue.tableColumns) ∧
    DiskBackedQueue.put ⟨"DR1", [], []⟩ ⟨"", "/a/b.dat", "", "/x/", 10, 0, 0⟩ false =
      (⟨"DR1", [⟨"", "/a/b.dat", "", "/x/", 10, 0, 0⟩], []⟩,
       .error "sqlite3.OperationalError: table queue_items has no column named retry") :=
  ⟨⟨by decide, by decide⟩, rfl⟩

/-- Claim C2, counterexample: the claim says that on a driver error
every mutation leaves the queue's observable state equal to its state
before the call.  A `get` hit by a driver error has already popped the
item from the in-memory FIFO and does not put it back, so the state
after the failed call differs from the state before it. -/
theorem C2_cex :
    ¬ ((DiskBackedQueue.get ⟨"DR1", [⟨"", "/a/b.dat", "", "/x/", 10, 0, 0⟩], []⟩ true).1 =
        ⟨"DR1", [⟨"", "/a/b.dat", "", "/x/", 10, 0, 0⟩], []⟩) := by
  decide

/-- Claim C2, amended: on a driver error the transaction is rolled back
— the persisted table is unchanged — and the error propagates, but the
in-memory FIFO was already mutated before the transaction and is not
restored: a failed `put` leaves the item pushed and a failed `get`
leaves the item popped. -/
theorem C2_amended (s : DiskBackedQueue.QState) (it : DiskBackedQueue.Item) :
    ((DiskBackedQueue.put s it true).1.rows = s.rows ∧
     (DiskBackedQueue.put s it true).1.mem = s.mem ++ [it] ∧
     (DiskBackedQueue.put s it true).2.isOk = false) ∧
    ((DiskBackedQueue.get s true).1.rows = s.rows ∧
     (DiskBackedQueue.get s true).1.mem = s.mem.tail) := by
  refine ⟨⟨rfl, rfl, rfl⟩, ?_⟩
  cases h : s.mem with
  | nil => simp [DiskBackedQueue.get, h]
  | cons a l => simp [DiskBackedQueue.get, h]

/-- Claim C2, amended, witness at a concrete queue state and item. -/
theorem C2_amended_witness :
    ((DiskBackedQueue.put ⟨"DR1", [], []⟩ ⟨"", "/a", "", "/x", 10, 0, 0⟩ true).1.rows =
        (⟨"DR1", [], []⟩ : DiskBackedQueue.QState).rows ∧
     (DiskBackedQueue.put ⟨"DR1", [], []⟩ ⟨"", "/a", "", "/x", 10, 0, 0⟩ true).1.mem =
        (⟨"DR1", [], []⟩ : DiskBackedQueue.QState).mem ++ [⟨"", "/a", "", "/x", 10, 0, 0⟩] ∧
     (DiskBackedQueue.put ⟨"DR1", [], []⟩ ⟨"", "/a", "", "/x", 10, 0, 0⟩ true).2.isOk = false) ∧
    ((DiskBackedQueue.get ⟨"DR1", [], []⟩ true).1.rows =
        (⟨"DR1", [], []⟩ : DiskBackedQueue.QState).rows ∧
     (DiskBackedQueue.get ⟨"DR1", [], []⟩ true).1.mem =
        (⟨"DR1", [], []⟩ : DiskBackedQueue.QState).mem.tail) :=
  C2_amended ⟨"DR1", [], []⟩ ⟨"", "/a", "", "/x", 10, 0, 0⟩

/-- Claim C3: the claim says reopening the queue resets `processing`
rows to `pending` and rebuilds the in-memory FIFO from the union of
the `pending` and `processing` rows.  The reset does happen, but
`_restore_pending_items` splats each 7-value row into
`queue.Queue.put`, which accepts at most three positional arguments
besides `self`, so the restore raises `TypeError` whenever at least
one pending row exists.  Evaluated at a crash state holding one
`processing` row. -/
theorem C3_restore_raises :
    DiskBackedQueue.reopen
      [{ queue_name := "DR1", host := "", hostpath := "/a/b.dat", dest := "",
         destpath := "/x/", filesize := 0, command_id := 10, retry_count := 0,
         last_try := 0, status := "processing" }] "DR1" =
      ([{ queue_name := "DR1", host := "", hostpath := "/a/b.dat", dest := "",
          destpath := "/x/", filesize := 0, command_id := 10, retry_count := 0,
          last_try := 0, status := "pending" }],
       .error "TypeError: put() takes from 2 to 4 positional arguments but 8 were given") :=
  rfl

/-- Claim C4: the claim says a failed job is recorded in the failed
set iff the source file no longer exists or the try count reached
`max_retry`, and is otherwise re-queued with `tries+1` and
`last_try = now`.  In the source the branch never consults source
existence (`getFileExists` has no caller), and the re-queue call
passes the whole task-specification tuple as the single positional
argument of `DiskBackedQueue.put`, which requires five, so it raises
`TypeError` and nothing is ever re-queued.  Evaluated at a retryable
failure (`tries = 0 < max_retry = 3`) with the source file absent: the
claim — and the spec-modelled disposition — prescribe a `failed`
record, while the code raises on the re-queue attempt; with
`tries = 5 ≥ 3` the `failed` record is written. -/
theorem C4_requeue_call_raises :
    ManageDR.handleFailed 0 3 ⟨"", "/a/b.dat", "", "/x/", 10, 0, 0⟩ =
      .raised "TypeError: put() missing 4 required positional arguments" ∧
    ManageDR.specFailedDisposition false 0 3 = true ∧
    ManageDR.handleFailed 0 3 ⟨"", "/a/b.dat", "", "/x/", 10, 0, 0⟩ ≠
      ManageDR.FailedAction.requeued ⟨"", "/a/b.dat", "", "/x/", 10, 0, 0⟩ ∧
    ManageDR.handleFailed 5 3 ⟨"", "/a/b.dat", "", "/x/", 10, 5, 0⟩ =
      ManageDR.FailedAction.recordFailed :=
  ⟨rfl, rfl, by decide, rfl⟩

/-- Claim C5, counterexample: the claim says a successful `DROS/Spec`
transfer is recorded as completed iff the copy was cross-host and the
destination host *is* the archival host.  The source tests substring
containment (`dest.find('leo10g.unm.edu') != -1`), so a cross-host
transfer to `DR2-leo10g.unm.edu` — which contains but does not equal
the archival host name — is recorded, contradicting the claim's
only-if direction. -/
theorem C5_cex :
    ManageDR.recordsCompleted "/LWA1/DROS/Spec/f.dat" "DR1" "DR2-leo10g.unm.edu" = true ∧
    ("DR2-leo10g.unm.edu" : String) ≠ "leo10g.unm.edu" ∧
    ("DR1" : String) ≠ "DR2-leo10g.unm.edu" ∧
    pyFind "/LWA1/DROS/Spec/f.dat" "DROS/Spec" = true :=
  ⟨by decide, by decide, by decide, by decide⟩

/-- Claim C5, amended: a successful transfer is recorded as completed
iff its source path does not contain `DROS/Spec`, or the copy was
cross-host (`host != dest`) and the destination string *contains*
`leo10g.unm.edu` as a substring. -/
theorem C5_amended (hostpath host dest : String) :
    ManageDR.recordsCompleted hostpath host dest = true ↔
      (pyFind hostpath "DROS/Spec" = false ∨
        (host ≠ dest ∧ pyFind dest "leo10g.unm.edu" = true)) := by
  unfold ManageDR.recordsCompleted
  split <;> rename_i h <;> simp_all

/-- Claim C5, amended, witness at a concrete same-host transfer. -/
theorem C5_amended_witness :
    ManageDR.recordsCompleted "/a/b.dat" "DR1" "DR1" = true ↔
      (pyFind "/a/b.dat" "DROS/Spec" = false ∨
        (("DR1" : String) ≠ "DR1" ∧ pyFind "DR1" "leo10g.unm.edu" = true)) :=
  C5_amended "/a/b.dat" "DR1" "DR1"

/-- Claim C6, counterexample: the claim says the remote-transfer
semaphore is released only when a cross-host executor that acquired it
terminates, so at most one cross-host executor is ever non-complete.
`ManageDR.stop` releases the semaphore unconditionally (and Python's
`Semaphore.release` never raises `ThreadError`), so after a `stop`
issued with no cross-host transfer in flight the count reaches 2 and
two cross-host executors can be spawned and be active together. -/
theorem C6_cex :
    ¬ (∀ s : ManageDR.RclState,
        ManageDR.run [.stop, .spawnCross, .spawnCross] = some s →
        s.activeCross ≤ 1) := by
  intro h
  exact absurd (h ⟨0, 2⟩ (by decide)) (by decide)

/-- Claim C6, amended: the semaphore is acquired before spawning a
cross-host executor and released when one terminates, and along every
schedule that contains no `ManageDR.stop` event the semaphore count
plus the number of non-complete cross-host executors stays 1, so at
most one cross-host executor is non-complete; `stop`, however,
releases unconditionally and breaks the invariant. -/
theorem C6_amended (evs : List ManageDR.RclEv) (s : ManageDR.RclState)
    (hns : ManageDR.RclEv.stop ∉ evs)
    (h : ManageDR.run evs = some s) :
    s.sem + s.activeCross = 1 ∧ s.activeCross ≤ 1 := by
  have hinv := ManageDR.runFrom_inv evs ⟨1, 0⟩ s hns (by decide) h
  exact ⟨hinv, by omega⟩

/-- Claim C6, amended, witness on the schedule spawn-then-finish. -/
theorem C6_amended_witness :
    (⟨1, 0⟩ : ManageDR.RclState).sem + (⟨1, 0⟩ : ManageDR.RclState).activeCross = 1 ∧
    (⟨1, 0⟩ : ManageDR.RclState).activeCross ≤ 1 :=
  C6_amended [.spawnCross, .finishCross] ⟨1, 0⟩ (by decide) (by decide)

/-- Claim C7, counterexample: the claim says only a retry
(`tries > 0`) attempted within 24 hours is refused, and every other
construction starts the copy or delete running.  Constructing a fresh
job (`tries = 0`) whose `last_try` equals the current time — the
guard compares only timestamps — yields `error: too soon to retry`
with nothing spawned. -/
theorem C7_cex :
    ¬ (∀ (host hostpath dest destpath : String) (id tries last_try now : Int),
        ¬ (tries > 0 ∧ now - last_try < 86400) →
        destpath ≠ DELETE_MARKER_QUEUE →
        (InterruptibleCopy.init host hostpath dest destpath id tries last_try now).threadSpawned
          = true) := by
  intro h
  have := h "" "/a/b.dat" "" "/x/" 10 0 1000 1000 (by omega) (by decide)
  exact absurd this (by decide)

/-- Claim C7, amended: construction enters `error: too soon to retry`
without spawning iff `now - last_try ≤ 86400`, regardless of the try
count; otherwise `resume()` runs, which spawns the worker thread
unless the destination is `DELETE_MARKER_QUEUE` (marked complete with
nothing spawned). -/
theorem C7_amended (host hostpath dest destpath : String) (id tries last_try now : Int) :
    ((InterruptibleCopy.init host hostpath dest destpath id tries last_try now).status
        = "error: too soon to retry" ↔ ¬ (now - last_try > 86400)) ∧
    ((InterruptibleCopy.init host hostpath dest destpath id tries last_try now).threadSpawned
        = true ↔ (now - last_try > 86400 ∧ destpath ≠ DELETE_MARKER_QUEUE)) := by
  by_cases ht : now - last_try > 86400
  · by_cases hq : destpath = DELETE_MARKER_QUEUE
    · simp [InterruptibleCopy.init, InterruptibleCopy.resume, ht, hq]
    · simp [InterruptibleCopy.init, InterruptibleCopy.resume, ht, hq]
  · simp [InterruptibleCopy.init, InterruptibleCopy.resume, ht]

/-- Claim C7, amended, witness at a concrete fresh construction. -/
theorem C7_amended_witness :
    ((InterruptibleCopy.init "" "/a" "" "/x" 10 0 0 100000).status
        = "error: too soon to retry" ↔ ¬ ((100000:Int) - 0 > 86400)) ∧
    ((InterruptibleCopy.init "" "/a" "" "/x" 10 0 0 100000).threadSpawned
        = true ↔ ((100000:Int) - 0 > 86400 ∧ ("/x" : String) ≠ DELETE_MARKER_QUEUE)) :=
  C7_amended "" "/a" "" "/x" 10 0 0 100000

/-- Claim C8: with the worker map initialized (`drThreads` not `None`,
`dr` present in `globalInhibit`), the supervisor's activity callback
resumes worker `dr` iff `busy` is false and `globalInhibit[dr]` is
false, and pauses it in every other case. -/
theorem C8_resume_iff_idle_uninhibited (gi : List (String × Bool)) (dr : String)
    (busy g : Bool) (h : gi.lookup dr = some g) :
    (SmartCopy.processDRStateChange true gi dr busy = .ok (true, some .resumed)
        ↔ (busy = false ∧ g = false)) ∧
    (SmartCopy.processDRStateChange true gi dr busy = .ok (true, some .paused)
        ↔ ¬ (busy = false ∧ g = false)) := by
  unfold SmartCopy.processDRStateChange
  rw [h]
  cases busy <;> cases g <;> simp

/-- Claim C8, witness: one idle, uninhibited recorder is resumed. -/
theorem C8_witness :
    (SmartCopy.processDRStateChange true [("DR1", false)] "DR1" false =
        .ok (true, some .resumed) ↔ (false = false ∧ false = false)) ∧
    (SmartCopy.processDRStateChange true [("DR1", false)] "DR1" false =
        .ok (true, some .paused) ↔ ¬ (false = false ∧ false = false)) :=
  C8_resume_iff_idle_uninhibited [("DR1", false)] "DR1" false false rfl

/-- Claim C9, counterexample: the claim says two consecutive requests
with the same reference id yield one execution and one rejection.
Processing the same `PNG` packet (reference 42) twice in a row — the
second call running on the command-status state the first left behind
— is accepted and executed both times; nothing is rejected. -/
theorem C9_cex :
    (MCSCommunicate.processCommand ⟨"SCM", "NORMAL"⟩ [] ⟨"SCM", "MCS", "PNG", 42, ""⟩).1
        = some (some (true, "")) ∧
    (MCSCommunicate.processCommand ⟨"SCM", "NORMAL"⟩
        (MCSCommunicate.processCommand ⟨"SCM", "NORMAL"⟩ [] ⟨"SCM", "MCS", "PNG", 42, ""⟩).2
        ⟨"SCM", "MCS", "PNG", 42, ""⟩).1 = some (some (true, "")) :=
  ⟨rfl, rfl⟩

/-- Claim C9, amended: the request handler keeps no recent-refs set —
its accept/reject decision and reply are computed from the packet and
the subsystem view alone, independent of the accumulated
command-status history, so every request is processed regardless of
how often its reference id was seen before. -/
theorem C9_amended (v : MCSCommunicate.SCView) (cs1 cs2 : List MCSCommunicate.StatusBucket)
    (p : MCSCommunicate.Packet) :
    (MCSCommunicate.processCommand v cs1 p).1 = (MCSCommunicate.processCommand v cs2 p).1 := by
  unfold MCSCommunicate.processCommand
  repeat' split
  all_goals rfl

/-- Claim C9, amended, witness at a concrete packet and two distinct
command-status histories. -/
theorem C9_amended_witness :
    (MCSCommunicate.processCommand ⟨"SCM", "NORMAL"⟩ [⟨7, [("INI", 42, 0)]⟩]
        ⟨"SCM", "MCS", "RPT", 42, "SUMMARY"⟩).1 =
    (MCSCommunicate.processCommand ⟨"SCM", "NORMAL"⟩ []
        ⟨"SCM", "MCS", "RPT", 42, "SUMMARY"⟩).1 :=
  C9_amended ⟨"SCM", "NORMAL"⟩ [⟨7, [("INI", 42, 0)]⟩] [] ⟨"SCM", "MCS", "RPT", 42, "SUMMARY"⟩

/-- Claim C10, counterexample: the claim says each `resume()` from a
non-paused state increases `tries` by 101 for *both* delete markers.
For a `DELETE_MARKER_QUEUE` destination `resume` returns early with
status `complete` and leaves `tries` unchanged (0, not 101). -/
theorem C10_cex :
    ¬ (∀ (c : InterruptibleCopy.ICState) (now : Int),
        (c.destpath = DELETE_MARKER_NOW ∨ c.destpath = DELETE_MARKER_QUEUE) →
        c.threadSpawned = false → c.status ≠ "paused" →
        (InterruptibleCopy.resume c now).1.tries = c.tries + 101) := by
  intro h
  have := h ⟨"", "/a/b.dat", "", DELETE_MARKER_QUEUE, 10, 0, 0, "", false⟩ 5
    (Or.inr rfl) rfl (by decide)
  exact absurd this (by decide)

/-- Claim C10, amended: a `DELETE_MARKER_NOW` destination resumed from
a non-paused state gains 101 tries (the normal +1 plus the extra +100),
so one failed immediate delete exceeds any `max_retry ≤ 101`, and the
executor goes active with a spawned thread; a `DELETE_MARKER_QUEUE`
destination is instead marked `complete` immediately, with no thread
spawned and `tries` unchanged. -/
theorem C10_amended (c : InterruptibleCopy.ICState) (now : Int)
    (hth : c.threadSpawned = false) (hst : c.status ≠ "paused") :
    (c.destpath = DELETE_MARKER_NOW →
      ((InterruptibleCopy.resume c now).1.tries = c.tries + 101 ∧
       (InterruptibleCopy.resume c now).1.threadSpawned = true ∧
       (InterruptibleCopy.resume c now).1.status = "active")) ∧
    (c.destpath = DELETE_MARKER_QUEUE →
      (InterruptibleCopy.resume c now).1 = { c with status := "complete" }) := by
  constructor
  · intro hd
    have hq : c.destpath ≠ DELETE_MARKER_QUEUE := by rw [hd]; decide
    simp [InterruptibleCopy.resume, hth, hq, hst, hd, delete_markers_distinct]
    omega
  · intro hq
    simp [InterruptibleCopy.resume, hth, hq]

/-- Claim C10, amended, witness at a concrete immediate-delete job. -/
theorem C10_amended_witness :
    (DELETE_MARKER_NOW = DELETE_MARKER_NOW →
      ((InterruptibleCopy.resume ⟨"", "/a", "", DELETE_MARKER_NOW, 10, 0, 0, "", false⟩ 5).1.tries
          = 0 + 101 ∧
       (InterruptibleCopy.resume ⟨"", "/a", "", DELETE_MARKER_NOW, 10, 0, 0, "", false⟩ 5).1.threadSpawned
          = true ∧
       (InterruptibleCopy.resume ⟨"", "/a", "", DELETE_MARKER_NOW, 10, 0, 0, "", false⟩ 5).1.status
          = "active")) ∧
    (DELETE_MARKER_NOW = DELETE_MARKER_QUEUE →
      (InterruptibleCopy.resume ⟨"", "/a", "", DELETE_MARKER_NOW, 10, 0, 0, "", false⟩ 5).1 =
        { host := "", hostpath := "/a", dest := "", destpath := DELETE_MARKER_NOW, id := 10,
          tries := 0, last_try := 0, status := "complete", threadSpawned := false }) :=
  C10_amended ⟨"", "/a", "", DELETE_MARKER_NOW, 10, 0, 0, "", false⟩ 5 rfl (by decide)
